import Mathlib

/-!
Shallow embedding of the warpdrive adapter (an Axum-to-Warp compatibility
layer): the request translator `into_warp_request` (src/convert_request.rs),
the response translator `into_axum_response` (src/convert_response.rs), and
the service adapter `WarpService` (src/warp_service.rs).

Conventions of the embedding:
- Header values and body bytes are `List Nat` (one `Nat` per byte).
- A body is a finite sequence of byte chunks (`List Bytes`), mirroring the
  chunked `Body` types of both frameworks; a translation that keeps the
  chunk list intact models lazy forwarding, while one that joins the chunks
  into a single element models full in-memory buffering (`to_bytes`).
- The grammars of the external `http` crates (method token, URI, header
  name, header value) are abstracted into a `Grammar` record of decidable
  predicates; every theorem quantifies over the grammar, so nothing depends
  on the details of those external parsers.
- Rust `Infallible` is `Empty`; fallible calls return `Except`.
-/

/-- A byte string: one `Nat` per byte. -/
abbrev Bytes := List Nat

/-- One header entry: name and raw value bytes. Both header maps iterate
entries in a defined order with duplicates kept, so both sides are modelled
as ordered lists of entries. -/
structure Header where
  name : String
  value : Bytes
  deriving DecidableEq, Repr

/-- HTTP protocol version on the unified (Axum, `http` 1.x) side. The five
named constants of `axum::http::Version`; `other` mirrors the fact that the
type is opaque and the source matches it with a trailing wildcard arm. -/
inductive AxumVersion
  | http09
  | http10
  | http11
  | http2
  | http3
  | other (n : Nat)
  deriving DecidableEq, Repr

/-- HTTP protocol version on the legacy (Warp, `http` 0.2) side. -/
inductive WarpVersion
  | http09
  | http10
  | http11
  | http2
  | http3
  | other (n : Nat)
  deriving DecidableEq, Repr

/-- `true` exactly on the five recognized version constants. -/
def AxumVersion.recognized : AxumVersion → Bool
  | .other _ => false
  | _ => true

/-- `true` exactly on the five recognized version constants. -/
def WarpVersion.recognized : WarpVersion → Bool
  | .other _ => false
  | _ => true

/-- Unified inbound request (`axum::extract::Request`): method token, URI
string, version, ordered header list, chunked body. -/
structure AxumRequest where
  method : String
  uri : String
  version : AxumVersion
  headers : List Header
  body : List Bytes
  deriving DecidableEq, Repr

/-- Legacy request (`warp::http::Request<warp::hyper::Body>`). -/
structure WarpRequest where
  method : String
  uri : String
  version : WarpVersion
  headers : List Header
  body : List Bytes
  deriving DecidableEq, Repr

/-- Legacy response (`warp::http::Response`): numeric status, version,
ordered header list, chunked body. The status is the `u16` held by the
legacy `StatusCode`. -/
structure WarpResponse where
  status : Nat
  version : WarpVersion
  headers : List Header
  body : List Bytes
  deriving DecidableEq, Repr

/-- Unified response (`axum::response::Response`). -/
structure AxumResponse where
  status : Nat
  version : AxumVersion
  headers : List Header
  body : List Bytes
  deriving DecidableEq, Repr

/-- The grammars enforced by the external `http` crate parsers and builders,
abstracted as decidable predicates: `validMethod` is `Method::from_str`
succeeding, `validUri` is `Uri::try_from` succeeding on the printed URI,
`validHeaderName` and `validHeaderValue` are the checks `Builder::header`
performs. Theorems quantify over this record. -/
structure Grammar where
  validMethod : String → Bool
  validUri : String → Bool
  validHeaderName : String → Bool
  validHeaderValue : Bytes → Bool

/-- The grammar in which every token parses; used to evaluate the model on
concrete inputs. -/
def allowAll : Grammar :=
  { validMethod := fun _ => true
    validUri := fun _ => true
    validHeaderName := fun _ => true
    validHeaderValue := fun _ => true }

/-- The distinct failure sites of the two translators. In the source each
site produces a distinct formatted `String`; the spec names them
`InvalidMethod`, `InvalidUri`, `InvalidStatus`, `BodyReadError`,
`ResponseBuildError`. `requestBuildError` is the `builder.body(..)` failure
site of `into_warp_request`; `bodyReadError` is the `to_bytes` failure site
of `into_axum_response` (never produced here because the embedded body is
already plain data). -/
inductive TranslationError
  | invalidMethod
  | invalidUri
  | invalidStatus
  | bodyReadError
  | requestBuildError
  | responseBuildError
  deriving DecidableEq, Repr

/-- All header entries pass the builder checks of the target `http` crate. -/
def headersValid (G : Grammar) (hs : List Header) : Bool :=
  hs.all fun h => G.validHeaderName h.name && G.validHeaderValue h.value

namespace ConvertRequest

/-- `convert_version` of src/convert_request.rs: the five recognized
constants map to their counterparts, the wildcard arm yields HTTP 1.1. -/
def convert_version : AxumVersion → WarpVersion
  | .http09 => .http09
  | .http10 => .http10
  | .http11 => .http11
  | .http2 => .http2
  | .http3 => .http3
  | .other _ => .http11

end ConvertRequest

namespace ConvertResponse

/-- `convert_version` of src/convert_response.rs: same mapping in the
opposite direction. -/
def convert_version : WarpVersion → AxumVersion
  | .http09 => .http09
  | .http10 => .http10
  | .http11 => .http11
  | .http2 => .http2
  | .http3 => .http3
  | .other _ => .http11

end ConvertResponse

/-- `into_warp_request` of src/convert_request.rs. In order: parse the
method under the legacy grammar (failure is the `InvalidMethod` site), parse
the printed URI under the legacy grammar (failure is the `InvalidUri` site),
convert the version, copy every header entry in iteration order, and wrap
the body stream unchanged (`WarpBody::wrap_stream`, no buffering). The final
`builder.body(..)` fails exactly when some copied header failed the builder
check. -/
def into_warp_request (G : Grammar) (req : AxumRequest) :
    Except TranslationError WarpRequest :=
  if G.validMethod req.method = false then
    .error .invalidMethod
  else if G.validUri req.uri = false then
    .error .invalidUri
  else if headersValid G req.headers = false then
    .error .requestBuildError
  else
    .ok
      { method := req.method
        uri := req.uri
        version := ConvertRequest.convert_version req.version
        headers := req.headers
        body := req.body }

/-- `into_axum_response` of src/convert_response.rs. In order: re-check the
numeric status through `StatusCode::from_u16`, whose accepted range in the
`http` crate is 100 to 999 (failure is the `InvalidStatus` site, raised
before anything else by the `?`), convert the version, copy every header
entry in iteration order, then buffer the whole body with `to_bytes` and
hand the single resulting buffer to the builder: the output body is one
chunk holding the concatenation of the input chunks. -/
def into_axum_response (G : Grammar) (resp : WarpResponse) :
    Except TranslationError AxumResponse :=
  if resp.status < 100 ∨ 999 < resp.status then
    .error .invalidStatus
  else if headersValid G resp.headers = false then
    .error .responseBuildError
  else
    .ok
      { status := resp.status
        version := ConvertResponse.convert_version resp.version
        headers := resp.headers
        body := [resp.body.flatten] }

/-- The legacy routing graph as the adapter consumes it: the boxed Warp
service built in `WarpService::new`, one operation, request in and response
out. Its Rust error type is `Infallible` and the wrapper maps it through
`unreachable!`, so the graph is a total function. -/
def RoutingGraph := WarpRequest → WarpResponse

/-- The shared wrapper around the routing graph. The source field is
`service: Arc<Mutex<WrappedWarpService>>` (src/warp_service.rs line 66):
a reference-counted handle to a single mutex-guarded instance. The lock
discipline of `process_request` is modelled separately by
`process_request_events`. -/
structure ArcMutex (α : Type) where
  inner : α

/-- The adapter (`WarpService`): it owns exactly the shared handle. -/
structure WarpService where
  service : ArcMutex RoutingGraph

/-- How the shared graph field of `WarpService` is wrapped. -/
inductive GraphWrapper
  | plain
  | arcOnly
  | arcMutex
  deriving DecidableEq, Repr

/-- The wrapper the source declares for the graph field:
`Arc<Mutex<WrappedWarpService>>` (src/warp_service.rs lines 64 to 67). -/
def warpServiceGraphWrapper : GraphWrapper := .arcMutex

/-- The atomic steps of `WarpService::process_request`
(src/warp_service.rs lines 86 to 105), in program order. -/
inductive Event
  | translateRequest
  | lockAcquire
  | createGraphFuture
  | lockRelease
  | awaitGraphFuture
  | translateResponse
  deriving DecidableEq, Repr

/-- The step sequence of `process_request`: translate the request; acquire
the mutex (`self.service.lock()`); call the inner service, which only
creates the invocation future; drop the guard (the temporary
`MutexGuard` dies at the end of the `let future = ...;` statement); await
the future, which is when the routing graph actually runs; translate the
response. -/
def process_request_events : List Event :=
  [.translateRequest, .lockAcquire, .createGraphFuture, .lockRelease,
   .awaitGraphFuture, .translateResponse]

/-- Whether the mutex is held when step `e` runs, scanning the trace with
current lock depth `d`. -/
def lockHeldAux : Nat → List Event → Event → Bool
  | _, [], _ => false
  | d, t :: ts, e =>
    if t = e then decide (0 < d)
    else
      lockHeldAux
        (match t with
          | .lockAcquire => d + 1
          | .lockRelease => d - 1
          | _ => d)
        ts e

/-- Whether the mutex is held while step `e` of the trace runs. -/
def lockHeldDuring (trace : List Event) (e : Event) : Bool :=
  lockHeldAux 0 trace e

/-- `StatusCode::canonical_reason` for the one code this crate constructs
itself (500); every other code renders through the same placeholder the
`Display` implementation uses when no canonical reason is known. -/
def canonicalReason (n : Nat) : String :=
  if n = 500 then "Internal Server Error" else "<unknown status code>"

/-- `Display` for a status code: the numeric code, a space, the reason. -/
def statusDisplay (n : Nat) : String :=
  toString n ++ " " ++ canonicalReason n

/-- ASCII bytes of a string (all strings involved are ASCII). -/
def asciiBytes (s : String) : Bytes :=
  s.data.map Char.toNat

/-- `Response::builder().status(status).body(body)` on the unified side:
succeeds when the status is in the accepted range of the `http` crate,
with version defaulting to HTTP 1.1 and no headers added. -/
def response_builder_build (status : Nat) (body : List Bytes) :
    Except TranslationError AxumResponse :=
  if status < 100 ∨ 999 < status then .error .responseBuildError
  else
    .ok { status := status, version := .http11, headers := [], body := body }

/-- The hardcoded last-resort response of the `unwrap_or_else` arm:
status 500, empty body, no headers. -/
def minimal500 : AxumResponse :=
  { status := 500, version := .http11, headers := [], body := [] }

/-- The fallback response built in `WarpService::call`
(src/warp_service.rs lines 123 to 131) when `process_request` returned an
error status: a builder response with that status and the single-chunk body
`"Error: {status}"`, and on builder failure the hardcoded `minimal500`. -/
def buildErrorResponse (status : Nat) : AxumResponse :=
  match response_builder_build status [asciiBytes ("Error: " ++ statusDisplay status)] with
  | .ok r => r
  | .error _ => minimal500

/-- `WarpService::process_request` (src/warp_service.rs lines 86 to 105):
translate the request, mapping failure to status 500; lock the shared
service and invoke the graph; translate the legacy response, mapping
failure to status 500. The error type is the status code the caller will
wrap, and only 500 is ever produced. -/
def WarpService.process_request (G : Grammar) (svc : WarpService)
    (req : AxumRequest) : Except Nat AxumResponse :=
  match into_warp_request G req with
  | .error _ => .error 500
  | .ok warp_req =>
    match into_axum_response G (svc.service.inner warp_req) with
    | .error _ => .error 500
    | .ok resp => .ok resp

/-- `Service::call` for `WarpService` (src/warp_service.rs lines 117 to
136): clone the handle, run `process_request`, and on an error status build
the fallback response. The error type is `Infallible` (`Empty`), so the
result is always `ok`. -/
def WarpService.call (G : Grammar) (svc : WarpService) (req : AxumRequest) :
    Except Empty AxumResponse :=
  .ok
    (match WarpService.process_request G svc req with
      | .ok resp => resp
      | .error status => buildErrorResponse status)

/-- The opaque waker context handed to `poll_ready`; the source ignores it
(`_cx`), so only its identity matters. -/
structure Context where
  id : Nat

/-- `Service::poll_ready` for `WarpService` (src/warp_service.rs lines 113
to 115): immediately ready, touching neither the context nor the state. -/
inductive Poll (α : Type)
  | ready (a : α)
  | pending
  deriving DecidableEq, Repr

/-- `poll_ready` always answers `Ready(Ok(()))`. -/
def WarpService.poll_ready (_svc : WarpService) (_cx : Context) :
    Poll (Except Empty Unit) :=
  .ready (.ok ())

/-! Concrete fixtures used to evaluate the model. -/

/-- A small unified request with a duplicated header name. -/
def req0 : AxumRequest :=
  { method := "GET"
    uri := "/hello"
    version := .http11
    headers := [⟨"host", asciiBytes "example.com"⟩, ⟨"x-dup", [1]⟩, ⟨"x-dup", [2]⟩]
    body := [[104], [105]] }

/-- The legacy request `into_warp_request` produces from `req0`. -/
def wreq0 : WarpRequest :=
  { method := "GET"
    uri := "/hello"
    version := .http11
    headers := [⟨"host", asciiBytes "example.com"⟩, ⟨"x-dup", [1]⟩, ⟨"x-dup", [2]⟩]
    body := [[104], [105]] }

/-- A legacy not-found rejection response, as the default Warp recovery
produces when no filter matches. -/
def resp404 : WarpResponse :=
  { status := 404
    version := .http11
    headers := [⟨"content-type", asciiBytes "text/plain; charset=utf-8"⟩]
    body := [asciiBytes "404 Not Found"] }

/-- The unified response `into_axum_response` produces from `resp404`. -/
def ar404 : AxumResponse :=
  { status := 404
    version := .http11
    headers := [⟨"content-type", asciiBytes "text/plain; charset=utf-8"⟩]
    body := [asciiBytes "404 Not Found"] }

/-- A legacy response with the nonstandard status 600, which the legacy
`StatusCode` type can hold. -/
def resp600 : WarpResponse :=
  { status := 600, version := .http11, headers := [], body := [[1]] }

/-- A legacy response whose body arrives in two separate chunks. -/
def respChunks : WarpResponse :=
  { status := 200, version := .http11, headers := [], body := [[1], [2]] }

/-- A grammar under which no method token parses. -/
def rejectMethods : Grammar :=
  { validMethod := fun _ => false
    validUri := fun _ => true
    validHeaderName := fun _ => true
    validHeaderValue := fun _ => true }

/-- An adapter whose routing graph answers every request with `resp404`. -/
def svc0 : WarpService := ⟨⟨fun _ => resp404⟩⟩

/-- A legacy response with status below the accepted range. -/
def resp50 : WarpResponse :=
  { status := 50, version := .http11, headers := [], body := [] }

/-! Helper lemmas shared by the claim theorems. -/

/-- A successful request translation copies method, URI, headers and body
chunks verbatim. -/
theorem into_warp_request_ok_fields (G : Grammar) (req : AxumRequest)
    (w : WarpRequest) (h : into_warp_request G req = Except.ok w) :
    w.method = req.method ∧ w.uri = req.uri ∧ w.headers = req.headers ∧
      w.body = req.body := by
  unfold into_warp_request at h
  split at h
  · simp at h
  split at h
  · simp at h
  split at h
  · simp at h
  · injection h with h
    subst h
    exact ⟨rfl, rfl, rfl, rfl⟩

/-- A successful response translation copies status and headers verbatim and
produces the single buffered body chunk. -/
theorem into_axum_response_ok_fields (G : Grammar) (resp : WarpResponse)
    (r : AxumResponse) (h : into_axum_response G resp = Except.ok r) :
    r.status = resp.status ∧ r.headers = resp.headers ∧
      r.body = [resp.body.flatten] := by
  unfold into_axum_response at h
  split at h
  · simp at h
  split at h
  · simp at h
  · injection h with h
    subst h
    exact ⟨rfl, rfl, rfl⟩

/-- Response translation succeeds on any in-range status with builder-valid
headers. -/
theorem into_axum_response_ok_of_valid (G : Grammar) (resp : WarpResponse)
    (h1 : 100 ≤ resp.status) (h2 : resp.status ≤ 999)
    (h3 : headersValid G resp.headers = true) :
    into_axum_response G resp =
      Except.ok
        { status := resp.status
          version := ConvertResponse.convert_version resp.version
          headers := resp.headers
          body := [resp.body.flatten] } := by
  unfold into_axum_response
  rw [if_neg (by omega), if_neg (by simp [h3])]

/-- The only error status `process_request` ever produces is 500. -/
theorem process_request_error_eq_500 (G : Grammar) (svc : WarpService)
    (req : AxumRequest) (s : Nat)
    (h : WarpService.process_request G svc req = Except.error s) : s = 500 := by
  unfold WarpService.process_request at h
  split at h
  · injection h with h
    exact h.symm
  · split at h
    · injection h with h
      exact h.symm
    · simp at h

/-- C1: the public call of the adapter is total with an uninhabited error
type (`Empty`): for every request, well-formed or not, it returns `ok` with
a response, and that response is either the fully translated output of the
pipeline or the 500 fallback — the worst observable outcome. -/
theorem call_total_and_worst_case_500 (G : Grammar) (svc : WarpService)
    (req : AxumRequest) :
    ∃ r : AxumResponse, WarpService.call G svc req = Except.ok r ∧
      (WarpService.process_request G svc req = Except.ok r ∨ r.status = 500) := by
  unfold WarpService.call
  cases h : WarpService.process_request G svc req with
  | ok resp => exact ⟨resp, rfl, Or.inl rfl⟩
  | error s =>
    have hs := process_request_error_eq_500 G svc req s h
    subst hs
    exact ⟨buildErrorResponse 500, rfl, Or.inr rfl⟩

/-- C2: any legacy response the routing graph produces — in particular its
structured rejections (404, 405, 400, 411, 415 and similar) — passes
through response translation with status, headers and body bytes unchanged,
and is never turned into a translation error. -/
theorem rejection_passthrough_unchanged (G : Grammar) (resp : WarpResponse)
    (h1 : 100 ≤ resp.status) (h2 : resp.status ≤ 999)
    (h3 : headersValid G resp.headers = true) :
    ∃ r : AxumResponse, into_axum_response G resp = Except.ok r ∧
      r.status = resp.status ∧ r.headers = resp.headers ∧
      r.body.flatten = resp.body.flatten :=
  ⟨_, into_axum_response_ok_of_valid G resp h1 h2 h3, rfl, rfl, by simp⟩

/-- Witness for C2 at a concrete legacy 404 rejection. -/
theorem rejection_passthrough_unchanged_witness :
    ∃ r : AxumResponse, into_axum_response allowAll resp404 = Except.ok r ∧
      r.status = resp404.status ∧ r.headers = resp404.headers ∧
      r.body.flatten = resp404.body.flatten :=
  rejection_passthrough_unchanged allowAll resp404 (by decide) (by decide) rfl

/-- C3: when no translation error occurs, the method token, URI, header
list (names, values, duplicates, order) and body bytes round-trip
identically: request translation preserves all four verbatim, and response
translation preserves status, headers and body bytes. -/
theorem translation_roundtrip_identity (G : Grammar) (req : AxumRequest)
    (resp : WarpResponse) (w : WarpRequest) (r : AxumResponse) :
    (into_warp_request G req = Except.ok w →
      w.method = req.method ∧ w.uri = req.uri ∧ w.headers = req.headers ∧
        w.body = req.body) ∧
    (into_axum_response G resp = Except.ok r →
      r.status = resp.status ∧ r.headers = resp.headers ∧
        r.body.flatten = resp.body.flatten) := by
  constructor
  · exact into_warp_request_ok_fields G req w
  · intro h
    obtain ⟨hs, hh, hb⟩ := into_axum_response_ok_fields G resp r h
    exact ⟨hs, hh, by rw [hb]; simp⟩

/-- Witness for C3 at a concrete request with duplicated headers and a
concrete response. -/
theorem translation_roundtrip_identity_witness :
    (wreq0.method = req0.method ∧ wreq0.uri = req0.uri ∧
      wreq0.headers = req0.headers ∧ wreq0.body = req0.body) ∧
    (ar404.status = resp404.status ∧ ar404.headers = resp404.headers ∧
      ar404.body.flatten = resp404.body.flatten) :=
  ⟨(translation_roundtrip_identity allowAll req0 resp404 wreq0 ar404).1 rfl,
   (translation_roundtrip_identity allowAll req0 resp404 wreq0 ar404).2 rfl⟩

/-- C4 counterexample: the source declares the shared graph field as
`Arc<Mutex<WrappedWarpService>>` (src/warp_service.rs line 66), so the
shared routing graph IS gated behind a single mutex-guarded instance,
contradicting the claim that it never is. -/
theorem graph_wrapper_is_mutex_guarded :
    warpServiceGraphWrapper = GraphWrapper.arcMutex := rfl

/-- C4 amended: the graph sits behind a single `Arc<Mutex<..>>`, but in
`process_request` the mutex is held only during the synchronous creation of
the invocation future and is released before that future is awaited; it is
never held while the legacy graph actually runs or while either translation
runs, so no call waits for the in-flight graph invocation of another
call. -/
theorem mutex_held_only_for_future_creation :
    warpServiceGraphWrapper = GraphWrapper.arcMutex ∧
    lockHeldDuring process_request_events Event.createGraphFuture = true ∧
    lockHeldDuring process_request_events Event.awaitGraphFuture = false ∧
    lockHeldDuring process_request_events Event.translateRequest = false ∧
    lockHeldDuring process_request_events Event.translateResponse = false := by
  decide

/-- C5 counterexample: a legacy response whose body arrives as the two
chunks `[1]` and `[2]` is translated into a response holding the single
fully materialized chunk `[1, 2]`: `to_bytes` buffers the entire response
body, so the body is not forwarded as the original lazy chunk sequence. -/
theorem response_body_fully_buffered :
    respChunks.body = [[1], [2]] ∧
    into_axum_response allowAll respChunks =
      Except.ok
        { status := 200, version := .http11, headers := [], body := [[1, 2]] } ∧
    ([[1, 2]] : List Bytes) ≠ [[1], [2]] :=
  ⟨rfl, rfl, by decide⟩

/-- C5 amended: request translation forwards the body as the unchanged lazy
chunk sequence (`wrap_stream`, no buffering and no length precomputation),
but response translation buffers the entire body into one contiguous chunk
(`to_bytes`) before building the unified response; the bytes themselves are
preserved. -/
theorem request_body_lazy_response_body_buffered (G : Grammar)
    (req : AxumRequest) (resp : WarpResponse) (w : WarpRequest)
    (r : AxumResponse) :
    (into_warp_request G req = Except.ok w → w.body = req.body) ∧
    (into_axum_response G resp = Except.ok r → r.body = [resp.body.flatten]) := by
  constructor
  · intro h
    exact (into_warp_request_ok_fields G req w h).2.2.2
  · intro h
    exact (into_axum_response_ok_fields G resp r h).2.2

/-- Witness for the amended C5 at concrete inputs. -/
theorem request_body_lazy_response_body_buffered_witness :
    wreq0.body = req0.body ∧ ar404.body = [resp404.body.flatten] :=
  ⟨(request_body_lazy_response_body_buffered allowAll req0 resp404 wreq0 ar404).1 rfl,
   (request_body_lazy_response_body_buffered allowAll req0 resp404 wreq0 ar404).2 rfl⟩

/-- C6: in both directions each of the five recognized protocol versions
maps exactly to its counterpart, the two maps are mutually inverse on the
recognized values (a symmetric bijection), and every unrecognized version
maps to HTTP 1.1 without an error. -/
theorem version_mapping_bijective_with_fallback :
    (ConvertRequest.convert_version .http09 = .http09 ∧
     ConvertRequest.convert_version .http10 = .http10 ∧
     ConvertRequest.convert_version .http11 = .http11 ∧
     ConvertRequest.convert_version .http2 = .http2 ∧
     ConvertRequest.convert_version .http3 = .http3 ∧
     ConvertResponse.convert_version .http09 = .http09 ∧
     ConvertResponse.convert_version .http10 = .http10 ∧
     ConvertResponse.convert_version .http11 = .http11 ∧
     ConvertResponse.convert_version .http2 = .http2 ∧
     ConvertResponse.convert_version .http3 = .http3) ∧
    (∀ v : AxumVersion, v.recognized = true →
      ConvertResponse.convert_version (ConvertRequest.convert_version v) = v) ∧
    (∀ w : WarpVersion, w.recognized = true →
      ConvertRequest.convert_version (ConvertResponse.convert_version w) = w) ∧
    (∀ v : AxumVersion, v.recognized = false →
      ConvertRequest.convert_version v = .http11) ∧
    (∀ w : WarpVersion, w.recognized = false →
      ConvertResponse.convert_version w = .http11) := by
  refine ⟨by decide, ?_, ?_, ?_, ?_⟩ <;> intro v h <;> cases v <;>
    simp_all [AxumVersion.recognized, WarpVersion.recognized,
      ConvertRequest.convert_version, ConvertResponse.convert_version]

/-- Witness for C6: one recognized round-trip and both fallback arms at
concrete unrecognized versions. -/
theorem version_mapping_bijective_with_fallback_witness :
    ConvertResponse.convert_version (ConvertRequest.convert_version .http2) =
      AxumVersion.http2 ∧
    ConvertRequest.convert_version (AxumVersion.other 7) = WarpVersion.http11 ∧
    ConvertResponse.convert_version (WarpVersion.other 9) = AxumVersion.http11 :=
  ⟨version_mapping_bijective_with_fallback.2.1 .http2 rfl,
   version_mapping_bijective_with_fallback.2.2.2.1 (.other 7) rfl,
   version_mapping_bijective_with_fallback.2.2.2.2 (.other 9) rfl⟩

/-- C7 counterexample: the status 600 lies outside 100 to 599, yet response
translation succeeds and copies it verbatim, because the accepted range of
`StatusCode::from_u16` in the `http` crate is 100 to 999, not 100 to 599 —
refuting the claim that any value outside 100 to 599 fails with
`InvalidStatus`. -/
theorem status_600_translates_ok :
    into_axum_response allowAll resp600 =
      Except.ok
        { status := 600, version := .http11, headers := [], body := [[1]] } :=
  rfl

/-- C7 amended: the status code is copied verbatim whenever translation
succeeds, and translation fails with `InvalidStatus` exactly when the
status lies outside 100 to 999 (the accepted range of
`StatusCode::from_u16`). -/
theorem status_range_100_999 (G : Grammar) (resp : WarpResponse) :
    (into_axum_response G resp = Except.error TranslationError.invalidStatus ↔
      resp.status < 100 ∨ 999 < resp.status) ∧
    (∀ r : AxumResponse, into_axum_response G resp = Except.ok r →
      r.status = resp.status) := by
  constructor
  · constructor
    · intro h
      unfold into_axum_response at h
      split at h
      · assumption
      · split at h <;> simp at h
    · intro h
      unfold into_axum_response
      rw [if_pos h]
  · intro r h
    exact (into_axum_response_ok_fields G resp r h).1

/-- Witness for the amended C7: a concrete out-of-range status fails with
`InvalidStatus`, and a concrete in-range status is copied verbatim. -/
theorem status_range_100_999_witness :
    into_axum_response allowAll resp50 =
      Except.error TranslationError.invalidStatus ∧
    ar404.status = resp404.status :=
  ⟨(status_range_100_999 allowAll resp50).1.mpr (by decide),
   (status_range_100_999 allowAll resp404).2 ar404 rfl⟩

/-- C8: request translation fails with `InvalidMethod` exactly when the
method token does not parse under the legacy grammar, and with `InvalidUri`
exactly when the method parses but the URI does not re-parse (the method is
checked first, so a bad method masks a bad URI); any translation failure
never reaches the routing graph — the outcome is independent of the graph —
and surfaces to the caller as the 500 fallback response. -/
theorem structural_failures_500_before_graph (G : Grammar) (req : AxumRequest) :
    (into_warp_request G req = Except.error TranslationError.invalidMethod ↔
      G.validMethod req.method = false) ∧
    (into_warp_request G req = Except.error TranslationError.invalidUri ↔
      G.validMethod req.method = true ∧ G.validUri req.uri = false) ∧
    (∀ e : TranslationError, into_warp_request G req = Except.error e →
      (∀ svc : WarpService,
        WarpService.call G svc req = Except.ok (buildErrorResponse 500) ∧
        (buildErrorResponse 500).status = 500) ∧
      (∀ svc svc' : WarpService,
        WarpService.process_request G svc req =
          WarpService.process_request G svc' req)) := by
  refine ⟨?_, ?_, ?_⟩
  · constructor
    · intro h
      unfold into_warp_request at h
      split at h
      · assumption
      · split at h
        · simp at h
        · split at h <;> simp at h
    · intro h
      unfold into_warp_request
      rw [if_pos h]
  · constructor
    · intro h
      unfold into_warp_request at h
      split at h
      · simp at h
      · rename_i hm
        split at h
        · rename_i hu
          simp at hm
          exact ⟨hm, hu⟩
        · split at h <;> simp at h
    · intro ⟨h1, h2⟩
      unfold into_warp_request
      rw [if_neg (by simp [h1]), if_pos h2]
  · intro e h
    constructor
    · intro svc
      refine ⟨?_, rfl⟩
      unfold WarpService.call WarpService.process_request
      rw [h]
    · intro svc svc'
      unfold WarpService.process_request
      rw [h]

/-- Witness for C8: under a grammar rejecting every method token, a
concrete request fails with `InvalidMethod` and the concrete adapter
answers with the 500 fallback. -/
theorem structural_failures_500_before_graph_witness :
    into_warp_request rejectMethods req0 =
      Except.error TranslationError.invalidMethod ∧
    WarpService.call rejectMethods svc0 req0 =
      Except.ok (buildErrorResponse 500) :=
  ⟨(structural_failures_500_before_graph rejectMethods req0).1.mpr rfl,
   (((structural_failures_500_before_graph rejectMethods req0).2.2
      TranslationError.invalidMethod
      ((structural_failures_500_before_graph rejectMethods req0).1.mpr rfl)).1
      svc0).1⟩

/-- C9 counterexample: the fallback response built on a translation error
carries no headers at all — in particular no `content-type: text/plain`
header — because the builder in `WarpService::call` sets only the status
and the body, contradicting the claim that the synthetic response carries a
`content-type: text/plain` header. -/
theorem fallback_response_has_no_headers :
    (buildErrorResponse 500).headers = [] := rfl

/-- C9 amended: on a translation error the adapter produces a synthetic
response with status 500 and the diagnostic text body
`Error: 500 Internal Server Error`, but with no headers (no content-type);
the construction is total (never panics), and whenever the builder itself
fails (out-of-range status) the result is the minimal hardcoded 500
response with empty body and no headers. -/
theorem fallback_response_shape :
    buildErrorResponse 500 =
      { status := 500, version := .http11, headers := [],
        body := [asciiBytes "Error: 500 Internal Server Error"] } ∧
    (∀ s : Nat, s < 100 ∨ 999 < s → buildErrorResponse s = minimal500) := by
  constructor
  · rfl
  · intro s hs
    unfold buildErrorResponse response_builder_build
    rw [if_pos hs]

/-- Witness for the amended C9: at the out-of-range status 0 the builder
fails and the minimal hardcoded response is returned. -/
theorem fallback_response_shape_witness :
    buildErrorResponse 0 = minimal500 :=
  fallback_response_shape.2 0 (Or.inl (by decide))

/-- C10: `poll_ready` always answers `Ready(Ok(()))` immediately, and its
answer is independent of the adapter state and of the waker context — the
adapter never signals backpressure or unreadiness. -/
theorem poll_ready_always_ready_ok (svc svc' : WarpService) (cx cx' : Context) :
    WarpService.poll_ready svc cx = Poll.ready (Except.ok ()) ∧
    WarpService.poll_ready svc cx = WarpService.poll_ready svc' cx' :=
  ⟨rfl, rfl⟩
